import Mathlib

/-!
Verification development for the vsrealcugan module (src/vsrealcugan.py).

The module wraps an external Real-CUGAN upscaler for a video-processing host.
We shallow-embed its pure content:

* configuration resolution from a model-path string (`RealCUGAN.init`,
  mirroring `RealCUGAN.__init__`, and `real_cugan`, mirroring the
  registered entry point `real_cugan`);
* the per-frame marshalling and fallback pipeline (`vsFrameToArray`,
  `arrayToVsFrame`, `processWithCli`, `fallbackUpscaleArray`,
  `processFrame`, mirroring the functions of the same snake_case names);
* the temporary-file lifecycle of `_process_with_cli` as an event trace
  over an abstract file-system state (`cliTrace`, `liveAfter`).

Host-framework collaborators (VapourSynth frames, PIL, numpy, subprocess)
are modelled by their documented contracts: frame planes are rational-valued
sample grids (8-bit integer samples are rationals that happen to be naturals
below 256; float32 samples are rationals — every concrete float value used
in a theorem below is exactly representable in binary32, so the rational
model is exact there); the outcome of the external process is an oracle
value of type `ExtOutcome`.
-/

namespace VsRealCugan

/-- Python substring test `needle in haystack` on strings. -/
def pyIn (needle haystack : String) : Bool :=
  decide (needle.data <:+: haystack.data)

/-- The resolved state of a `RealCUGAN` instance after `__init__`
(src/vsrealcugan.py lines 21-54): the stored constructor arguments plus the
`scale` / `noise` values derived from the model path. -/
structure RealCUGAN where
  device_id : Int
  model_path : String
  scale : Nat
  tile : Nat
  tta_mode : Nat
  noise : Int
  deriving DecidableEq, Repr

/-- Model of `RealCUGAN.__init__` (lines 21-54): stores the arguments, then overrides
`scale` when the model path holds a "2x"/"up2x" or "4x"/"up4x" marker and
derives `noise` from the "denoise3x"/"denoise1x" markers. -/
def RealCUGAN.init (device_id : Int) (model_path : String) (scale : Nat)
    (tile : Nat) (tta_mode : Nat) : RealCUGAN :=
  { device_id := device_id,
    model_path := model_path,
    scale :=
      if pyIn "up2x" model_path || pyIn "2x" model_path then 2
      else if pyIn "up4x" model_path || pyIn "4x" model_path then 4
      else scale,
    tile := tile,
    tta_mode := tta_mode,
    noise :=
      if pyIn "denoise3x" model_path then 3
      else if pyIn "denoise1x" model_path then 1
      else -1 }

/-- The registered entry point `real_cugan` (lines 229-260), up to the clip
plumbing: when the model path is empty it substitutes a default model path
chosen by `scale`, then constructs the `RealCUGAN` instance.  The `noise`
argument is accepted but never forwarded. -/
def real_cugan (model_path : String) (scale : Nat) (tile : Nat)
    (device_id : Int) (noise : Int) (tta_mode : Nat) : RealCUGAN :=
  let mp :=
    if model_path = "" then
      if scale = 2 then "/models/realcugan/Real-CUGAN_up2x-latest-denoise3x.pth"
      else "/models/realcugan/Real-CUGAN_up4x-latest-conservative.pth"
    else model_path
  RealCUGAN.init device_id mp scale tile tta_mode

/-! ## Pixel model

Host frames carry `numPlanes` single-channel planes of samples; per the host
contract each plane is either 8-bit integer or normalized float32.  Samples
are modelled as rationals (see the header comment). -/

/-- A host pixel-format descriptor: plane count and sample kind. -/
structure VFormat where
  numPlanes : Nat
  sampleFloat : Bool
  deriving DecidableEq, Repr

/-- A host video frame: format, dimensions, and plane data
(`plane c i j` is the sample of plane `c` at row `i`, column `j`). -/
structure VFrame where
  format : VFormat
  height : Nat
  width : Nat
  plane : Nat → Nat → Nat → ℚ

/-- An interleaved numpy-style pixel buffer `(height, width, channels)`.
`isU8` records whether the dtype is uint8 (`Image.fromarray` with mode RGB
and the encode-side dtype test depend on it). -/
structure PixelBuffer where
  height : Nat
  width : Nat
  channels : Nat
  isU8 : Bool
  pix : Nat → Nat → Nat → ℚ

/-- The exceptions the pipeline can raise.  `decodeError` stands for the
host error raised by `frame.get_read_array(c)` on a frame with too few
planes; `formatMismatch` for the same error from `get_write_array` on the
encode side; `indexError` for numpy indexing `array[:, :, 2]` of a buffer
without 3 channels; `fromarrayError` for `Image.fromarray` on a non-uint8
array; `ioError` for a failing `pil_img.save`. -/
inductive PyErr where
  | decodeError
  | formatMismatch
  | indexError
  | fromarrayError
  | ioError
  deriving DecidableEq, Repr

/-- numpy `.astype(np.uint8)` applied to a nonnegative value below 256:
truncation toward zero.  (Outside that range the numpy conversion is
C-undefined; every use below is in range.)  The result is returned as a
rational so it can be stored back into a plane. -/
def npToU8 (q : ℚ) : ℚ := ((Int.toNat ⌊q⌋ % 256 : Nat) : ℚ)

/-- Model of `RealCUGAN._vs_frame_to_array` (lines 83-97): read the three planes
(raising if the frame has fewer than three), stack them interleaved, and
convert float32 samples to uint8 by multiplying by 255 and truncating. -/
def vsFrameToArray (f : VFrame) : Except PyErr PixelBuffer :=
  if f.format.numPlanes < 3 then .error .decodeError
  else if f.format.sampleFloat then
    .ok { height := f.height, width := f.width, channels := 3, isU8 := true,
          pix := fun i j c => npToU8 (f.plane c i j * 255) }
  else
    .ok { height := f.height, width := f.width, channels := 3, isU8 := true,
          pix := fun i j c => f.plane c i j }

/-- Model of `RealCUGAN._array_to_vs_frame` (lines 99-129): convert a non-uint8 array
by multiplying by 255 and truncating, split the three channels (numpy
indexing: raises when the buffer has fewer than 3 channels), allocate a
blank frame of the array dimensions and the ORIGINAL frame format, and copy
the channel planes into it (raising when that format has fewer than three
planes).  Note: the uint8 channel values are copied into the target planes
unchanged — `np.copyto` casts them, it does not renormalize to [0,1] for
float formats.

The dtype-normalization step (lines 102-103) is `npArrayToU8`; the rest is
`arrayToVsFrame`. -/
def npArrayToU8 (a : PixelBuffer) : PixelBuffer :=
  if a.isU8 then a
  else { a with isU8 := true, pix := fun i j c => npToU8 (a.pix i j c * 255) }

/-- See `npArrayToU8`: the remainder of `RealCUGAN._array_to_vs_frame`. -/
def arrayToVsFrame (a : PixelBuffer) (orig : VFrame) : Except PyErr VFrame :=
  if (npArrayToU8 a).channels < 3 then .error .indexError
  else if orig.format.numPlanes < 3 then .error .formatMismatch
  else
    .ok { format := orig.format, height := (npArrayToU8 a).height,
          width := (npArrayToU8 a).width,
          plane := fun c i j => (npArrayToU8 a).pix i j c }

/-- Decode then re-encode with the original frame as the format source and
no scaling in between: `_array_to_vs_frame(_vs_frame_to_array(f), f)`. -/
def codecRoundTrip (f : VFrame) : Except PyErr VFrame :=
  match vsFrameToArray f with
  | .error e => .error e
  | .ok a => arrayToVsFrame a f

/-- Oracle for one external-process attempt inside `_process_with_cli`:
`saveError` — `pil_img.save` raises (before the inner try, so it escapes);
`spawnError` — `subprocess.run` raises; `timeout` — `TimeoutExpired`;
`nonZeroExit` — return code not 0; `missingOutput` — return code 0 but no
output file; `success out` — output file read back as the buffer `out`. -/
inductive ExtOutcome where
  | saveError
  | spawnError
  | timeout
  | nonZeroExit
  | missingOutput
  | success (out : PixelBuffer)

/-- Model of `RealCUGAN._fallback_upscale_array` (lines 211-216): `Image.fromarray`
(requires a uint8 3-channel array for mode RGB), then a PIL resize to
`(width * scale, height * scale)`.  The resampling kernel is a collaborator
detail (PIL Lanczos); it is modelled by nearest-neighbour sampling — the
claims rely only on the documented output shape and on totality. -/
def fallbackUpscaleArray (cfg : RealCUGAN) (a : PixelBuffer) :
    Except PyErr PixelBuffer :=
  if a.isU8 = true ∧ a.channels = 3 then
    .ok { height := cfg.scale * a.height, width := cfg.scale * a.width,
          channels := 3, isU8 := true,
          pix := fun i j c => a.pix (i / cfg.scale) (j / cfg.scale) c }
  else .error .fromarrayError

/-- Model of `RealCUGAN._process_with_cli` (lines 160-209), data flow.
`Image.fromarray` and `pil_img.save` run before the inner try, so their
failures escape; every failure of the subprocess attempt itself is caught
in place and answered by `_fallback_upscale_array` (under the guard the
fallback itself cannot raise). -/
def processWithCli (cfg : RealCUGAN) (env : ExtOutcome) (a : PixelBuffer) :
    Except PyErr PixelBuffer :=
  if a.isU8 = true ∧ a.channels = 3 then
    match env with
    | .saveError => .error .ioError
    | .success out => .ok out
    | .spawnError | .timeout | .nonZeroExit | .missingOutput =>
        fallbackUpscaleArray cfg a
  else .error .fromarrayError

/-- Model of `RealCUGAN._process_image_array` (lines 131-141) together with
`_process_with_python_api` (lines 143-158): the ImportError branch calls
`_process_with_cli` directly, and the native-API branch is a stub whose try
body and both exception handlers also end in `_process_with_cli`, so every
path delegates to it. -/
def processImageArray (cfg : RealCUGAN) (env : ExtOutcome) (a : PixelBuffer) :
    Except PyErr PixelBuffer :=
  processWithCli cfg env a

/-- Model of `RealCUGAN._fallback_upscale` (lines 218-223): decode, fallback resize,
re-encode; each step may raise. -/
def fallbackUpscale (cfg : RealCUGAN) (f : VFrame) : Except PyErr VFrame :=
  match vsFrameToArray f with
  | .error e => .error e
  | .ok a =>
    match fallbackUpscaleArray cfg a with
    | .error e => .error e
    | .ok up => arrayToVsFrame up f

/-- The try body of `process_frame` (lines 61-69): decode, upscale,
re-encode; each step may raise. -/
def processFrameTry (cfg : RealCUGAN) (env : ExtOutcome) (f : VFrame) :
    Except PyErr VFrame :=
  match vsFrameToArray f with
  | .error e => .error e
  | .ok a =>
    match processImageArray cfg env a with
    | .error e => .error e
    | .ok up => arrayToVsFrame up f

/-- Model of `process_frame` (lines 59-74), the per-frame closure of
`RealCUGAN.__call__`: try decode / upscale / encode; on ANY exception fall
back to `_fallback_upscale` — whose own exceptions, raised inside the
except handler, do propagate to the caller. -/
def processFrame (cfg : RealCUGAN) (env : ExtOutcome) (f : VFrame) :
    Except PyErr VFrame :=
  match processFrameTry cfg env f with
  | .ok fr => .ok fr
  | .error _ => fallbackUpscale cfg f

/-! ## Temporary-file lifecycle of `_process_with_cli`

`with tempfile.TemporaryDirectory() as temp_dir:` allocates a fresh
directory, the input/output files live inside it, and the context manager
removes the directory on every exit path, exceptions included.  We record
the file-system actions of one invocation as an event trace, parameterized
by the directory name the allocator returned and by the outcome oracle, and
interpret traces over the set of live temporary directories. -/

/-- One file-system action of `_process_with_cli`; every action names the
temporary directory it happens in, and files are addressed by the pair
(directory, file name). -/
inductive FsEvent where
  | create (dir : String)
  | writeFile (dir fname : String)
  | invoke (dir : String)
  | readFile (dir fname : String)
  | remove (dir : String)
  deriving DecidableEq, Repr

/-- The directory an event touches. -/
def FsEvent.touchesDir : FsEvent → String
  | .create d => d
  | .writeFile d _ => d
  | .invoke d => d
  | .readFile d _ => d
  | .remove d => d

/-- The event trace of one `_process_with_cli` invocation (lines 163-209)
whose `TemporaryDirectory` was allocated as `dir` and whose attempt had
outcome `env`: create the directory, save `input.png`, run the command
(skipped when the save itself raised), read `output.png` back only on
success, and in every case remove the directory on exit from the `with`
block. -/
def cliTrace (dir : String) : ExtOutcome → List FsEvent
  | .saveError =>
      [.create dir, .writeFile dir "input.png", .remove dir]
  | .spawnError =>
      [.create dir, .writeFile dir "input.png", .invoke dir, .remove dir]
  | .timeout =>
      [.create dir, .writeFile dir "input.png", .invoke dir, .remove dir]
  | .nonZeroExit =>
      [.create dir, .writeFile dir "input.png", .invoke dir, .remove dir]
  | .missingOutput =>
      [.create dir, .writeFile dir "input.png", .invoke dir, .remove dir]
  | .success _ =>
      [.create dir, .writeFile dir "input.png", .invoke dir,
       .readFile dir "output.png", .remove dir]

/-- Effect of one event on the set of live temporary directories. -/
def dirsLiveStep (live : List String) : FsEvent → List String
  | .create d => d :: live
  | .remove d => live.erase d
  | _ => live

/-- The live temporary directories after running a trace. -/
def liveAfter (live : List String) (tr : List FsEvent) : List String :=
  tr.foldl dirsLiveStep live

/-! ## Concrete example objects used by witnesses and counterexamples -/

/-- A configuration with scale 2 (the stored state of
`RealCUGAN(device_id=0, model_path="", scale=2, tile=256)`). -/
def cfg2 : RealCUGAN :=
  { device_id := 0, model_path := "", scale := 2, tile := 256,
    tta_mode := 0, noise := -1 }

/-- A 1x1 uint8 RGB buffer, all samples 7. -/
def buf1 : PixelBuffer :=
  { height := 1, width := 1, channels := 3, isU8 := true,
    pix := fun _ _ _ => 7 }

/-- A 3-plane 8-bit-integer format. -/
def fmtU8 : VFormat := { numPlanes := 3, sampleFloat := false }

/-- A 3-plane normalized-float32 format. -/
def fmtF32 : VFormat := { numPlanes := 3, sampleFloat := true }

/-- A single-plane (grayscale) 8-bit format. -/
def fmtGray : VFormat := { numPlanes := 1, sampleFloat := false }

/-- A 1x1 frame in the 8-bit format, all samples 7. -/
def frameU8 : VFrame :=
  { format := fmtU8, height := 1, width := 1, plane := fun _ _ _ => 7 }

/-- A 1x1 frame in the float format, all samples 1/2 (a value exactly
representable in binary32, as are 1/2 * 255 = 127.5 and 127). -/
def frameHalf : VFrame :=
  { format := fmtF32, height := 1, width := 1, plane := fun _ _ _ => 1/2 }

/-- A 1x1 single-plane frame. -/
def frameGray : VFrame :=
  { format := fmtGray, height := 1, width := 1, plane := fun _ _ _ => 7 }

/-! ## Configuration-resolution theorems -/

/-- Marker absorption: `"2x"` occurs in every string in which `"up2x"` occurs, so the
disjunction in `__init__` line 41 collapses to its second test. -/
theorem pyIn_absorb_2x (mp : String) :
    (pyIn "up2x" mp || pyIn "2x" mp) = pyIn "2x" mp := by
  cases h : pyIn "up2x" mp
  · simp
  · have h2 : pyIn "2x" mp = true := by
      simp only [pyIn, decide_eq_true_eq] at h ⊢
      exact List.IsInfix.trans (by decide) h
    simp [h2]

/-- Marker absorption: `"4x"` occurs in every string in which `"up4x"` occurs, so the
disjunction in `__init__` line 43 collapses to its second test. -/
theorem pyIn_absorb_4x (mp : String) :
    (pyIn "up4x" mp || pyIn "4x" mp) = pyIn "4x" mp := by
  cases h : pyIn "up4x" mp
  · simp
  · have h4 : pyIn "4x" mp = true := by
      simp only [pyIn, decide_eq_true_eq] at h ⊢
      exact List.IsInfix.trans (by decide) h
    simp [h4]

/-- C4: configuration resolution is a pure function of the model identifier
string: scale is 2 when it holds a "2x" marker, else 4 when it holds a "4x"
marker, else the caller-supplied default; noise is 3 for "denoise3x", 1 for
"denoise1x", else -1; and "Real-CUGAN_up2x-latest-denoise3x.pth" resolves
to scale 2, noise 3. -/
theorem init_config_resolution (mp : String) (ds tile tta : Nat) (di : Int) :
    ((RealCUGAN.init di mp ds tile tta).scale =
      if pyIn "2x" mp then 2 else if pyIn "4x" mp then 4 else ds) ∧
    ((RealCUGAN.init di mp ds tile tta).noise =
      if pyIn "denoise3x" mp then 3 else if pyIn "denoise1x" mp then 1
      else -1) ∧
    (RealCUGAN.init di "Real-CUGAN_up2x-latest-denoise3x.pth" ds tile
      tta).scale = 2 ∧
    (RealCUGAN.init di "Real-CUGAN_up2x-latest-denoise3x.pth" ds tile
      tta).noise = 3 := by
  refine ⟨?_, rfl, rfl, rfl⟩
  show (if pyIn "up2x" mp || pyIn "2x" mp then 2
        else if pyIn "up4x" mp || pyIn "4x" mp then 4 else ds) = _
  simp only [pyIn_absorb_2x, pyIn_absorb_4x]

/-- C5 counterexample: calling the public entry point with the empty model
path does NOT leave the caller-supplied defaults unchanged: with scale 2
and noise -1 the resolved noise level is 3, and with scale 3 the resolved
scale is 4. -/
theorem real_cugan_empty_overrides_defaults :
    (real_cugan "" 2 256 0 (-1) 0).noise = 3 ∧
    (real_cugan "" 3 256 0 (-1) 0).scale = 4 ∧ (3 : Int) ≠ -1 ∧ 4 ≠ 3 := by
  refine ⟨rfl, rfl, by decide, by decide⟩

/-- C5 amended: with the empty model path, `real_cugan` substitutes a
built-in default model path chosen by the caller scale, so the resolved
configuration is scale 2, noise 3 when the caller scale is 2, and scale 4,
noise -1 otherwise — the caller-supplied noise argument never enters. -/
theorem real_cugan_empty_path (scale tile : Nat) (di noise : Int)
    (tta : Nat) :
    ((real_cugan "" scale tile di noise tta).scale =
      if scale = 2 then 2 else 4) ∧
    ((real_cugan "" scale tile di noise tta).noise =
      if scale = 2 then 3 else -1) := by
  by_cases h : scale = 2
  · subst h
    exact ⟨rfl, rfl⟩
  · rw [if_neg h, if_neg h]
    unfold real_cugan
    rw [if_pos rfl, if_neg h]
    exact ⟨rfl, rfl⟩

/-- C10: the `noise` argument of the registered public function never
influences the result — two invocations differing only in it build the same
upscaler state and process every frame identically. -/
theorem real_cugan_noise_independent (mp : String) (scale tile : Nat)
    (di n₁ n₂ : Int) (tta : Nat) (env : ExtOutcome) (f : VFrame) :
    real_cugan mp scale tile di n₁ tta = real_cugan mp scale tile di n₂ tta ∧
    processFrame (real_cugan mp scale tile di n₁ tta) env f =
      processFrame (real_cugan mp scale tile di n₂ tta) env f :=
  ⟨rfl, rfl⟩

/-! ## Pipeline helper lemmas -/

/-- Decoding a 3-plane frame succeeds and yields a uint8 3-channel buffer of
the frame dimensions. -/
theorem vsFrameToArray_ok (f : VFrame) (h : f.format.numPlanes = 3) :
    ∃ a, vsFrameToArray f = Except.ok a ∧ a.height = f.height ∧
      a.width = f.width ∧ a.channels = 3 ∧ a.isU8 = true := by
  cases hf : f.format.sampleFloat
  · exact ⟨{ height := f.height, width := f.width, channels := 3,
             isU8 := true, pix := fun i j c => f.plane c i j },
           by simp [vsFrameToArray, h, hf], rfl, rfl, rfl, rfl⟩
  · exact ⟨{ height := f.height, width := f.width, channels := 3,
             isU8 := true, pix := fun i j c => npToU8 (f.plane c i j * 255) },
           by simp [vsFrameToArray, h, hf], rfl, rfl, rfl, rfl⟩

theorem npArrayToU8_height (a : PixelBuffer) :
    (npArrayToU8 a).height = a.height := by
  cases h : a.isU8 <;> simp [npArrayToU8, h]

theorem npArrayToU8_width (a : PixelBuffer) :
    (npArrayToU8 a).width = a.width := by
  cases h : a.isU8 <;> simp [npArrayToU8, h]

theorem npArrayToU8_channels (a : PixelBuffer) :
    (npArrayToU8 a).channels = a.channels := by
  cases h : a.isU8 <;> simp [npArrayToU8, h]

theorem npArrayToU8_of_u8 (a : PixelBuffer) (h : a.isU8 = true) :
    npArrayToU8 a = a := by
  simp [npArrayToU8, h]

/-- Encoding a buffer with at least three channels into a 3-plane format
succeeds and the new frame takes the buffer dimensions verbatim. -/
theorem arrayToVsFrame_ok (a : PixelBuffer) (orig : VFrame)
    (hc : 3 ≤ a.channels) (hfmt : orig.format.numPlanes = 3) :
    arrayToVsFrame a orig = Except.ok
      { format := orig.format, height := a.height, width := a.width,
        plane := fun c i j => (npArrayToU8 a).pix i j c } := by
  unfold arrayToVsFrame
  rw [if_neg (by rw [npArrayToU8_channels]; omega), if_neg (by omega),
    npArrayToU8_height, npArrayToU8_width]

/-- The PIL fallback resize succeeds on a uint8 3-channel buffer and
returns the scaled buffer. -/
theorem fallbackUpscaleArray_ok (cfg : RealCUGAN) (a : PixelBuffer)
    (h8 : a.isU8 = true) (hc : a.channels = 3) :
    fallbackUpscaleArray cfg a = Except.ok
      { height := cfg.scale * a.height, width := cfg.scale * a.width,
        channels := 3, isU8 := true,
        pix := fun i j c => a.pix (i / cfg.scale) (j / cfg.scale) c } := by
  unfold fallbackUpscaleArray
  rw [if_pos ⟨h8, hc⟩]

/-- Lemma: `_fallback_upscale` on a 3-plane frame succeeds and returns a frame of
the scaled dimensions in the original format. -/
theorem fallbackUpscale_ok (cfg : RealCUGAN) (f : VFrame)
    (hfmt : f.format.numPlanes = 3) :
    ∃ fr, fallbackUpscale cfg f = Except.ok fr ∧ fr.format = f.format ∧
      fr.height = cfg.scale * f.height ∧ fr.width = cfg.scale * f.width := by
  obtain ⟨a, ha, hah, haw, hac, ha8⟩ := vsFrameToArray_ok f hfmt
  have heq : fallbackUpscale cfg f = Except.ok
      { format := f.format, height := cfg.scale * a.height,
        width := cfg.scale * a.width,
        plane := fun c i j => a.pix (i / cfg.scale) (j / cfg.scale) c } := by
    simp only [fallbackUpscale, ha, fallbackUpscaleArray_ok cfg a ha8 hac]
    rw [arrayToVsFrame_ok _ f (by norm_num) hfmt, npArrayToU8_of_u8 _ rfl]
  exact ⟨_, heq, rfl, by rw [hah], by rw [haw]⟩

/-- On every failure outcome of the attempt itself, `_process_with_cli`
answers with the locally computed fallback result. -/
theorem processWithCli_fallsBack (cfg : RealCUGAN) (a : PixelBuffer)
    (h8 : a.isU8 = true) (hc : a.channels = 3) (env : ExtOutcome)
    (henv : env = ExtOutcome.spawnError ∨ env = ExtOutcome.timeout ∨
      env = ExtOutcome.nonZeroExit ∨ env = ExtOutcome.missingOutput) :
    processWithCli cfg env a = fallbackUpscaleArray cfg a := by
  rcases henv with rfl | rfl | rfl | rfl <;> simp [processWithCli, h8, hc]

/-- Case analysis of `process_frame` on a 3-plane frame: it always returns
a frame in the original format, whose dimensions are those of the external
output when the external attempt succeeded with a usable buffer, and the
fallback-scaled dimensions otherwise. -/
theorem processFrame_cases (cfg : RealCUGAN) (env : ExtOutcome) (f : VFrame)
    (hfmt : f.format.numPlanes = 3) :
    ∃ fr, processFrame cfg env f = Except.ok fr ∧ fr.format = f.format ∧
      ((∃ out, env = ExtOutcome.success out ∧ 3 ≤ out.channels ∧
        fr.height = out.height ∧ fr.width = out.width) ∨
       (fr.height = cfg.scale * f.height ∧
        fr.width = cfg.scale * f.width)) := by
  obtain ⟨a, ha, hah, haw, hac, ha8⟩ := vsFrameToArray_ok f hfmt
  obtain ⟨fb, hfb, hfbf, hfbh, hfbw⟩ := fallbackUpscale_ok cfg f hfmt
  have hfall : ∀ env₂ : ExtOutcome,
      processWithCli cfg env₂ a = fallbackUpscaleArray cfg a →
      ∃ fr, processFrame cfg env₂ f = Except.ok fr ∧ fr.format = f.format ∧
        ((∃ out, env₂ = ExtOutcome.success out ∧ 3 ≤ out.channels ∧
          fr.height = out.height ∧ fr.width = out.width) ∨
         (fr.height = cfg.scale * f.height ∧
          fr.width = cfg.scale * f.width)) := by
    intro env₂ hcli
    have htr : processFrameTry cfg env₂ f = Except.ok
        { format := f.format, height := cfg.scale * a.height,
          width := cfg.scale * a.width,
          plane := fun c i j => a.pix (i / cfg.scale) (j / cfg.scale) c } := by
      simp only [processFrameTry, ha, processImageArray, hcli,
        fallbackUpscaleArray_ok cfg a ha8 hac]
      rw [arrayToVsFrame_ok _ f (by norm_num) hfmt, npArrayToU8_of_u8 _ rfl]
    exact ⟨{ format := f.format, height := cfg.scale * a.height,
             width := cfg.scale * a.width,
             plane := fun c i j => a.pix (i / cfg.scale) (j / cfg.scale) c },
      by simp [processFrame, htr], rfl, Or.inr ⟨by rw [hah], by rw [haw]⟩⟩
  cases env with
  | saveError =>
      have htry : processFrameTry cfg ExtOutcome.saveError f =
          Except.error PyErr.ioError := by
        simp [processFrameTry, ha, processImageArray, processWithCli, ha8,
          hac]
      exact ⟨fb, by simp [processFrame, htry, hfb], hfbf,
        Or.inr ⟨hfbh, hfbw⟩⟩
  | success out =>
      by_cases hch : 3 ≤ out.channels
      · have htry : processFrameTry cfg (ExtOutcome.success out) f =
            Except.ok
              { format := f.format, height := out.height,
                width := out.width,
                plane := fun c i j => (npArrayToU8 out).pix i j c } := by
          simp only [processFrameTry, ha, processImageArray, processWithCli]
          rw [if_pos ⟨ha8, hac⟩]
          exact arrayToVsFrame_ok out f hch hfmt
        exact ⟨{ format := f.format, height := out.height,
                 width := out.width,
                 plane := fun c i j => (npArrayToU8 out).pix i j c },
          by simp [processFrame, htry], rfl,
          Or.inl ⟨out, rfl, hch, rfl, rfl⟩⟩
      · have hch' : (npArrayToU8 out).channels < 3 := by
          rw [npArrayToU8_channels]; omega
        have htry : processFrameTry cfg (ExtOutcome.success out) f =
            Except.error PyErr.indexError := by
          simp only [processFrameTry, ha, processImageArray, processWithCli]
          rw [if_pos ⟨ha8, hac⟩]
          simp [arrayToVsFrame, hch']
        exact ⟨fb, by simp [processFrame, htry, hfb], hfbf,
          Or.inr ⟨hfbh, hfbw⟩⟩
  | spawnError =>
      exact hfall ExtOutcome.spawnError
        (processWithCli_fallsBack cfg a ha8 hac _ (Or.inl rfl))
  | timeout =>
      exact hfall ExtOutcome.timeout
        (processWithCli_fallsBack cfg a ha8 hac _ (Or.inr (Or.inl rfl)))
  | nonZeroExit =>
      exact hfall ExtOutcome.nonZeroExit
        (processWithCli_fallsBack cfg a ha8 hac _ (Or.inr (Or.inr (Or.inl rfl))))
  | missingOutput =>
      exact hfall ExtOutcome.missingOutput
        (processWithCli_fallsBack cfg a ha8 hac _ (Or.inr (Or.inr (Or.inr rfl))))

/-! ## Claim theorems about the per-frame pipeline -/

/-- C1: for a 3-plane input frame of width W and height H and a
configuration of scale s, the frame returned by the per-frame pipeline has
dimensions exactly (W*s, H*s), independent of whether the native attempt,
the external-process attempt, or the terminal fallback produced the pixel
data (the external collaborator, when it succeeds, returns the scaled
output buffer per its contract). -/
theorem upscale_output_dims (cfg : RealCUGAN) (env : ExtOutcome) (f : VFrame)
    (hfmt : f.format.numPlanes = 3)
    (hext : ∀ out, env = ExtOutcome.success out →
      out.height = cfg.scale * f.height ∧ out.width = cfg.scale * f.width) :
    ∃ fr, processFrame cfg env f = Except.ok fr ∧
      fr.height = cfg.scale * f.height ∧ fr.width = cfg.scale * f.width := by
  obtain ⟨fr, hfr, _, hcases⟩ := processFrame_cases cfg env f hfmt
  rcases hcases with ⟨out, henv, _, hh, hw⟩ | ⟨hh, hw⟩
  · obtain ⟨ho, hwo⟩ := hext out henv
    exact ⟨fr, hfr, by rw [hh, ho], by rw [hw, hwo]⟩
  · exact ⟨fr, hfr, hh, hw⟩

/-- C1 witness: with scale 2 and an external attempt that produced no
output file, the pipeline still returns a 2x2 frame for a 1x1 input. -/
theorem upscale_output_dims_witness :
    frameU8.format.numPlanes = 3 ∧
    ∃ fr, processFrame cfg2 ExtOutcome.missingOutput frameU8 = Except.ok fr ∧
      fr.height = cfg2.scale * frameU8.height ∧
      fr.width = cfg2.scale * frameU8.width :=
  ⟨rfl, upscale_output_dims cfg2 ExtOutcome.missingOutput frameU8 rfl
    (fun out h => ExtOutcome.noConfusion h)⟩

/-- C2: on a 3-plane frame, no exception raised during the native attempt,
the external attempt, or the fallback resize escapes `process_frame`: for
every outcome of the environment it returns a validly-shaped frame — in
the original format, sized either by the successful external output or by
the fallback scale factor. -/
theorem processFrame_contains_failures (cfg : RealCUGAN) (env : ExtOutcome)
    (f : VFrame) (hfmt : f.format.numPlanes = 3) :
    ∃ fr, processFrame cfg env f = Except.ok fr ∧ fr.format = f.format ∧
      ((∃ out, env = ExtOutcome.success out ∧ fr.height = out.height ∧
        fr.width = out.width) ∨
       (fr.height = cfg.scale * f.height ∧
        fr.width = cfg.scale * f.width)) := by
  obtain ⟨fr, hfr, hff, hcases⟩ := processFrame_cases cfg env f hfmt
  rcases hcases with ⟨out, henv, _, hh, hw⟩ | hdims
  · exact ⟨fr, hfr, hff, Or.inl ⟨out, henv, hh, hw⟩⟩
  · exact ⟨fr, hfr, hff, Or.inr hdims⟩

/-- C2 witness: even when the save of the temporary input image raises (an
exception that escapes `_process_with_cli` itself), the per-frame handler
still returns a frame, here for a float-format 1x1 input. -/
theorem processFrame_contains_failures_witness :
    frameHalf.format.numPlanes = 3 ∧
    ∃ fr, processFrame cfg2 ExtOutcome.saveError frameHalf = Except.ok fr ∧
      fr.format = frameHalf.format ∧
      ((∃ out, ExtOutcome.saveError = ExtOutcome.success out ∧
        fr.height = out.height ∧ fr.width = out.width) ∨
       (fr.height = cfg2.scale * frameHalf.height ∧
        fr.width = cfg2.scale * frameHalf.width)) :=
  ⟨rfl, processFrame_contains_failures cfg2 ExtOutcome.saveError frameHalf rfl⟩

/-- C3 counterexample: with a non-zero exit status, `_process_with_cli`
does NOT signal a failure to its caller — it returns normally, and the
value it returns is its own locally substituted fallback result. -/
theorem processWithCli_substitutes_fallback :
    processWithCli cfg2 ExtOutcome.nonZeroExit buf1 =
      fallbackUpscaleArray cfg2 buf1 ∧
    processWithCli cfg2 ExtOutcome.nonZeroExit buf1 =
      Except.ok { height := 2, width := 2, channels := 3, isU8 := true,
                  pix := fun i j c => buf1.pix (i / 2) (j / 2) c } ∧
    (processWithCli cfg2 ExtOutcome.nonZeroExit buf1).isOk = true :=
  ⟨rfl, rfl, rfl⟩

/-- C3 amended: on non-zero exit, missing output, timeout, or a spawn
error, `_process_with_cli` itself substitutes the fallback-resized buffer
and returns it normally; no failure is signalled to the pipeline, so the
fallback substitution happens inside the external-process component rather
than in the per-frame handler that would catch a failure. -/
theorem processWithCli_failure_substitutes (cfg : RealCUGAN)
    (a : PixelBuffer) (h8 : a.isU8 = true) (hc : a.channels = 3)
    (env : ExtOutcome)
    (henv : env = ExtOutcome.spawnError ∨ env = ExtOutcome.timeout ∨
      env = ExtOutcome.nonZeroExit ∨ env = ExtOutcome.missingOutput) :
    processWithCli cfg env a = fallbackUpscaleArray cfg a ∧
    ∃ b, processWithCli cfg env a = Except.ok b ∧
      b.height = cfg.scale * a.height ∧ b.width = cfg.scale * a.width := by
  have h := processWithCli_fallsBack cfg a h8 hc env henv
  exact ⟨h, _, h.trans (fallbackUpscaleArray_ok cfg a h8 hc), rfl, rfl⟩

/-- C3 amended witness: concrete instance at a timeout. -/
theorem processWithCli_failure_substitutes_witness :
    processWithCli cfg2 ExtOutcome.timeout buf1 =
      fallbackUpscaleArray cfg2 buf1 :=
  (processWithCli_failure_substitutes cfg2 buf1 rfl rfl ExtOutcome.timeout
    (Or.inr (Or.inl rfl))).1

/-- C9: the fallback resize of a well-formed (uint8, 3-channel) buffer with
a scale factor in {2, 4} succeeds and returns a buffer of shape
(scale * height, scale * width, 3). -/
theorem fallback_resize_shape (cfg : RealCUGAN) (a : PixelBuffer)
    (h8 : a.isU8 = true) (hc : a.channels = 3)
    (hs : cfg.scale = 2 ∨ cfg.scale = 4) :
    ∃ b, fallbackUpscaleArray cfg a = Except.ok b ∧
      b.height = cfg.scale * a.height ∧ b.width = cfg.scale * a.width ∧
      b.channels = 3 :=
  ⟨_, fallbackUpscaleArray_ok cfg a h8 hc, rfl, rfl, rfl⟩

/-- C9 witness: a 1x1 buffer at scale 2 resizes to 2x2x3. -/
theorem fallback_resize_shape_witness :
    ∃ b, fallbackUpscaleArray cfg2 buf1 = Except.ok b ∧
      b.height = cfg2.scale * buf1.height ∧
      b.width = cfg2.scale * buf1.width ∧ b.channels = 3 :=
  fallback_resize_shape cfg2 buf1 rfl rfl (Or.inl rfl)

/-- C7 amended: decode then re-encode with the same format descriptor and
no scaling preserves dimensions and format; for integer-format planes the
pixel values are preserved exactly; for float32 planes decode multiplies by
255 and truncates to uint8, and encode copies those uint8 values back
WITHOUT renormalizing, so the re-encoded plane holds `trunc(255 * v)`, not
a value within quantization distance of `v`. -/
theorem codec_roundtrip (f : VFrame) (hfmt : f.format.numPlanes = 3) :
    ∃ fr, codecRoundTrip f = Except.ok fr ∧ fr.format = f.format ∧
      fr.height = f.height ∧ fr.width = f.width ∧
      (f.format.sampleFloat = false →
        ∀ c i j, c < 3 → fr.plane c i j = f.plane c i j) ∧
      (f.format.sampleFloat = true →
        ∀ c i j, c < 3 → fr.plane c i j = npToU8 (f.plane c i j * 255)) := by
  cases hf : f.format.sampleFloat
  · have ha : vsFrameToArray f = Except.ok
        { height := f.height, width := f.width, channels := 3,
          isU8 := true, pix := fun i j c => f.plane c i j } := by
      simp [vsFrameToArray, hfmt, hf]
    have heq : codecRoundTrip f = Except.ok
        { format := f.format, height := f.height, width := f.width,
          plane := fun c i j => f.plane c i j } := by
      simp only [codecRoundTrip, ha]
      rw [arrayToVsFrame_ok _ f (by norm_num) hfmt, npArrayToU8_of_u8 _ rfl]
    exact ⟨_, heq, rfl, rfl, rfl, fun _ c i j _ => rfl,
      fun h => absurd h (by simp)⟩
  · have ha : vsFrameToArray f = Except.ok
        { height := f.height, width := f.width, channels := 3,
          isU8 := true,
          pix := fun i j c => npToU8 (f.plane c i j * 255) } := by
      simp [vsFrameToArray, hfmt, hf]
    have heq : codecRoundTrip f = Except.ok
        { format := f.format, height := f.height, width := f.width,
          plane := fun c i j => npToU8 (f.plane c i j * 255) } := by
      simp only [codecRoundTrip, ha]
      rw [arrayToVsFrame_ok _ f (by norm_num) hfmt, npArrayToU8_of_u8 _ rfl]
    exact ⟨_, heq, rfl, rfl, rfl, fun h => absurd h (by simp),
      fun _ c i j _ => rfl⟩

/-- C7 amended witness: the integer-format round trip at a concrete 1x1
frame preserves the pixel value 7. -/
theorem codec_roundtrip_witness :
    frameU8.format.numPlanes = 3 ∧
    ∃ fr, codecRoundTrip frameU8 = Except.ok fr ∧
      fr.format = frameU8.format ∧ fr.height = frameU8.height ∧
      fr.width = frameU8.width ∧
      (frameU8.format.sampleFloat = false →
        ∀ c i j, c < 3 → fr.plane c i j = frameU8.plane c i j) ∧
      (frameU8.format.sampleFloat = true →
        ∀ c i j, c < 3 →
          fr.plane c i j = npToU8 (frameU8.plane c i j * 255)) :=
  ⟨rfl, codec_roundtrip frameU8 rfl⟩

/-- C7 counterexample: for a float32 frame whose single pixel value is 1/2
(every number involved is exactly representable in binary32), the round
trip returns the plane value 127 — not 1/2 up to uint8 quantization: it is
off by 126.5, far beyond any tolerance of one quantization step (and even
beyond tolerance 1). -/
theorem codec_roundtrip_float_counterexample :
    (codecRoundTrip frameHalf).map (fun fr => fr.plane 0 0 0) =
      Except.ok 127 ∧
    frameHalf.plane 0 0 0 = 1 / 2 ∧
    ¬ |(127 : ℚ) - 1 / 2| ≤ 1 := by
  refine ⟨?_, rfl, ?_⟩
  · have ha : vsFrameToArray frameHalf = Except.ok
        { height := 1, width := 1, channels := 3, isU8 := true,
          pix := fun i j c => npToU8 (frameHalf.plane c i j * 255) } := by
      simp [vsFrameToArray, frameHalf, fmtF32]
    have hc : codecRoundTrip frameHalf = Except.ok
        { format := fmtF32, height := 1, width := 1,
          plane := fun c i j => npToU8 (frameHalf.plane c i j * 255) } := by
      simp only [codecRoundTrip, ha]
      rw [arrayToVsFrame_ok _ frameHalf (by norm_num) rfl,
        npArrayToU8_of_u8 _ rfl]
      rfl
    have hfloor : ⌊(1 / 2 : ℚ) * 255⌋ = 127 := by
      rw [Int.floor_eq_iff]
      norm_num
    simp only [hc, Except.map]
    norm_num [frameHalf, npToU8, hfloor]
    rfl
  · rw [abs_of_pos (by norm_num)]
    norm_num

/-- C8: re-encoding fails with the format-mismatch error whenever the
target format descriptor does not have 3 planes (the valid host plane
counts being 1 and 3), and for such a frame the pipeline propagates the
decode error to its caller instead of recovering — while for 3-plane
frames every environment failure is recovered. -/
theorem encode_mismatch_propagates (a : PixelBuffer) (cfg : RealCUGAN)
    (env : ExtOutcome) (f : VFrame) (hc : a.channels = 3)
    (hvalid : f.format.numPlanes = 1 ∨ f.format.numPlanes = 3)
    (hne : f.format.numPlanes ≠ 3) :
    arrayToVsFrame a f = Except.error PyErr.formatMismatch ∧
    processFrame cfg env f = Except.error PyErr.decodeError ∧
    (∀ env₂ f₂, f₂.format.numPlanes = 3 →
      ∃ fr, processFrame cfg env₂ f₂ = Except.ok fr) := by
  have h1 : f.format.numPlanes = 1 := by
    rcases hvalid with h | h
    · exact h
    · exact absurd h hne
  have hlt : f.format.numPlanes < 3 := by omega
  have hd : vsFrameToArray f = Except.error PyErr.decodeError := by
    simp [vsFrameToArray, hlt]
  refine ⟨?_, ?_, ?_⟩
  · unfold arrayToVsFrame
    rw [if_neg (by rw [npArrayToU8_channels]; omega), if_pos hlt]
  · simp [processFrame, processFrameTry, fallbackUpscale, hd]
  · intro env₂ f₂ h₂
    obtain ⟨fr, hfr, _, _⟩ := processFrame_cases cfg env₂ f₂ h₂
    exact ⟨fr, hfr⟩

/-- C8 witness: concrete instance — encoding a 3-channel buffer into a
1-plane (grayscale) frame format fails with the format mismatch, and the
pipeline run on that grayscale frame surfaces the decode error. -/
theorem encode_mismatch_propagates_witness :
    buf1.channels = 3 ∧ frameGray.format.numPlanes ≠ 3 ∧
    arrayToVsFrame buf1 frameGray = Except.error PyErr.formatMismatch ∧
    processFrame cfg2 ExtOutcome.timeout frameGray =
      Except.error PyErr.decodeError :=
  ⟨rfl, by decide,
   (encode_mismatch_propagates buf1 cfg2 ExtOutcome.timeout frameGray rfl
     (Or.inl rfl) (by decide)).1,
   (encode_mismatch_propagates buf1 cfg2 ExtOutcome.timeout frameGray rfl
     (Or.inl rfl) (by decide)).2.1⟩

/-! ## Temporary-file lifecycle theorems -/

/-- Every event of one invocation trace happens inside the temporary
directory of that invocation. -/
theorem cliTrace_touchesDir (d : String) (ev : ExtOutcome) :
    ∀ e ∈ cliTrace d ev, FsEvent.touchesDir e = d := by
  intro e he
  cases ev <;> fin_cases he <;> rfl

/-- C6: per invocation of the external-process path, the temporary
directory holding the input/output files is created at entry (before the
external invocation), every file touched lives inside it, it is removed on
every exit path — success, non-zero exit, missing output, timeout, or a
raised exception — leaving the set of live temporary directories exactly
as before; and a second invocation whose directory is fresh while the
first is live touches disjoint paths. -/
theorem cli_temp_lifecycle (dir : String) (env : ExtOutcome)
    (live : List String) :
    liveAfter live (cliTrace dir env) = live ∧
    (cliTrace dir env).head? = some (FsEvent.create dir) ∧
    (cliTrace dir env).getLast? = some (FsEvent.remove dir) ∧
    (∀ e ∈ cliTrace dir env, FsEvent.touchesDir e = dir) ∧
    (∀ dir₂ env₂, dir₂ ∉ dir :: live →
      ∀ e ∈ cliTrace dir env, ∀ e₂ ∈ cliTrace dir₂ env₂,
        FsEvent.touchesDir e ≠ FsEvent.touchesDir e₂) := by
  refine ⟨?_, ?_, ?_, cliTrace_touchesDir dir env, ?_⟩
  · cases env <;>
      simp [cliTrace, liveAfter, dirsLiveStep, List.erase_cons_head]
  · cases env <;> rfl
  · cases env <;> rfl
  · intro dir₂ env₂ hmem e he e₂ he₂
    rw [cliTrace_touchesDir dir env e he, cliTrace_touchesDir dir₂ env₂ e₂ he₂]
    intro h
    exact hmem (h ▸ List.mem_cons_self dir live)

/-- C6 witness: two concurrent invocations in distinct fresh directories —
the first leaves the live set unchanged and their traces touch no common
directory. -/
theorem cli_temp_lifecycle_witness :
    liveAfter [] (cliTrace "/tmp/rc1" ExtOutcome.timeout) = [] ∧
    (∀ e ∈ cliTrace "/tmp/rc1" ExtOutcome.timeout,
      ∀ e₂ ∈ cliTrace "/tmp/rc2" ExtOutcome.nonZeroExit,
        FsEvent.touchesDir e ≠ FsEvent.touchesDir e₂) :=
  ⟨(cli_temp_lifecycle "/tmp/rc1" ExtOutcome.timeout []).1,
   (cli_temp_lifecycle "/tmp/rc1" ExtOutcome.timeout []).2.2.2.2 "/tmp/rc2"
     ExtOutcome.nonZeroExit (by decide)⟩

end VsRealCugan
